import Mathlib

/-!
Verification of the eddington tabular-data ingestion layer and plotting
border helper.

The ingestion pipeline (header detection, value coercion, column-role
resolution, `FittingData` container) lives in `eddington/fitting_data.py`,
which is exercised by `tests/fitting_data/test_read_fitting_data_from_file.py`.
Only the tests and `eddington/plot.py` are available, so the ingestion
pipeline is modelled from the specification; `get_plot_borders` is embedded
directly from `eddington/plot.py`.
-/

/-- Numeric value of a list of decimal digit characters, most significant
first. -/
def digitsToNat (cs : List Char) : Nat :=
  cs.foldl (fun acc c => 10 * acc + (c.toNat - ('0').toNat)) 0

/-- Modelled from the spec: parsing of an unsigned decimal floating-point
literal (digits with an optional single decimal point; at least one digit),
the notion of "parses as a floating-point number" used by header detection
and value coercion in `eddington/fitting_data.py` (not under `src/`). -/
def parseUnsigned : List Char → Option ℚ :=
  fun cs =>
    let intPart := cs.takeWhile Char.isDigit
    let rest := cs.dropWhile Char.isDigit
    match rest with
    | [] => if intPart.isEmpty then none else some ((digitsToNat intPart : ℚ))
    | '.' :: frac =>
      if frac.all Char.isDigit && !(intPart.isEmpty && frac.isEmpty) then
        some ((digitsToNat intPart : ℚ) + (digitsToNat frac : ℚ) / 10 ^ frac.length)
      else none
    | _ => none

/-- Modelled from the spec: parsing of a signed decimal floating-point
literal; `none` when the string is not a number. -/
def parseFloat? (s : String) : Option ℚ :=
  match s.toList with
  | '-' :: cs => (parseUnsigned cs).map Neg.neg
  | '+' :: cs => parseUnsigned cs
  | cs => parseUnsigned cs

/-- A raw cell of a source row: an explicit missing marker (`None`), a raw
string token (CSV cells, header cells), or an already-numeric value
(spreadsheet / structured-text cells). -/
inductive Cell where
  | absent : Cell
  | str : String → Cell
  | num : ℚ → Cell
deriving DecidableEq

/-- Modelled from the spec: coercion of a raw cell to a numeric value.
A missing marker never coerces; a string coerces exactly when it parses as
a floating-point number. -/
def coerceCell : Cell → Option ℚ
  | Cell.absent => none
  | Cell.str s => parseFloat? s
  | Cell.num q => some q

/-- Modelled from the spec: a first-row cell counts as a header cell when it
is a non-empty string that cannot be parsed as a floating-point number. -/
def isHeaderCell : Cell → Bool
  | Cell.str s => !(s == "") && (parseFloat? s).isNone
  | _ => false

/-- Modelled from the spec: the first row is a header exactly when every
cell is a header cell. -/
def isHeaderRow (row : List Cell) : Bool :=
  row.all isHeaderCell

/-- The string carried by a header cell. -/
def cellString : Cell → String
  | Cell.str s => s
  | _ => ""

/-- Modelled from the spec: coercion of one data row; `none` as soon as any
cell fails to coerce. -/
def coerceRow : List Cell → Option (List ℚ)
  | [] => some []
  | c :: cs =>
    match coerceCell c, coerceRow cs with
    | some q, some qs => some (q :: qs)
    | _, _ => none

/-- Modelled from the spec: coercion of all data rows; `none` as soon as any
row fails. -/
def coerceRows : List (List Cell) → Option (List (List ℚ))
  | [] => some []
  | r :: rs =>
    match coerceRow r, coerceRows rs with
    | some q, some qs => some (q :: qs)
    | _, _ => none

/-- Errors of the read operation: `invalidFileSyntax` models
`FittingDataInvalidFileSyntax` (malformed header or non-numeric data cell);
`invalidSelection` models the distinct invalid-column-selection error. -/
inductive ReadError where
  | invalidFileSyntax : ReadError
  | invalidSelection : ReadError
deriving DecidableEq

/-- Index of the first occurrence of `key` in a list of column names. -/
def findIndex (key : String) : List String → Option Nat
  | [] => none
  | a :: l => if a = key then some 0 else (findIndex key l).map (· + 1)

/-- A column-role selector: a 1-based column index or a header name. -/
inductive ColSel where
  | idx : Nat → ColSel
  | name : String → ColSel
deriving DecidableEq

/-- The four optional role selectors accepted by the read operation. -/
structure Selectors where
  x : Option ColSel
  xerr : Option ColSel
  y : Option ColSel
  yerr : Option ColSel
deriving DecidableEq

/-- No selector supplied for any role. -/
def noSelectors : Selectors :=
  ⟨none, none, none, none⟩

/-- Modelled from the spec: resolution of one explicit selector to a 0-based
column index; out-of-range indices and unknown names are selection errors. -/
def resolveSel (names : List String) (ncols : Nat) : ColSel → Except ReadError Nat
  | ColSel.idx k =>
    if 1 ≤ k ∧ k ≤ ncols then Except.ok (k - 1) else Except.error ReadError.invalidSelection
  | ColSel.name s =>
    match findIndex s names with
    | some i => Except.ok i
    | none => Except.error ReadError.invalidSelection

/-- Resolution of an optional selector. -/
def resolveOpt (names : List String) (ncols : Nat) :
    Option ColSel → Except ReadError (Option Nat)
  | none => Except.ok none
  | some c =>
    match resolveSel names ncols c with
    | Except.ok i => Except.ok (some i)
    | Except.error e => Except.error e

/-- Smallest index `≥ p` not in `claimed`, by fuelled search. -/
def nextUnusedAux : Nat → List Nat → Nat → Nat
  | 0, _, p => p
  | fuel + 1, claimed, p =>
    if p ∈ claimed then nextUnusedAux fuel claimed (p + 1) else p

/-- Modelled from the spec: the next column of the left-to-right scan that is
not claimed by an explicit selector. -/
def nextUnused (claimed : List Nat) (p : Nat) : Nat :=
  nextUnusedAux (claimed.length + 1) claimed p

/-- Modelled from the spec: one step of the left-to-right role assignment.
An explicit role keeps its column; an unspecified role takes the next unused
column of the scan. Returns the assigned column and the new scan position. -/
def assignRole (claimed : List Nat) (p : Nat) : Option Nat → Nat × Nat
  | some i => (i, i + 1)
  | none =>
    let c := nextUnused claimed p
    (c, c + 1)

/-- Modelled from the spec: resolution of the four role selectors. Explicit
selectors are resolved first; unspecified roles then default to the next
unused column in a single left-to-right scan over x, xerr, y, yerr, skipping
columns claimed by an explicit selector. Any resolved role out of range is a
selection error. -/
def resolveRoles (names : List String) (ncols : Nat) (sel : Selectors) :
    Except ReadError (Nat × Nat × Nat × Nat) :=
  match resolveOpt names ncols sel.x, resolveOpt names ncols sel.xerr,
      resolveOpt names ncols sel.y, resolveOpt names ncols sel.yerr with
  | Except.ok ox, Except.ok oxe, Except.ok oy, Except.ok oye =>
    let claimed := List.filterMap id [ox, oxe, oy, oye]
    let a1 := assignRole claimed 0 ox
    let a2 := assignRole claimed a1.2 oxe
    let a3 := assignRole claimed a2.2 oy
    let a4 := assignRole claimed a3.2 oye
    if a1.1 < ncols ∧ a2.1 < ncols ∧ a3.1 < ncols ∧ a4.1 < ncols then
      Except.ok (a1.1, a2.1, a3.1, a4.1)
    else Except.error ReadError.invalidSelection
  | Except.error e, _, _, _ => Except.error e
  | _, Except.error e, _, _ => Except.error e
  | _, _, Except.error e, _ => Except.error e
  | _, _, _, Except.error e => Except.error e

/-- Modelled from the spec: the validated container — column names, the
coerced data grid (row-major), and the four resolved role columns. -/
structure FittingData where
  names : List String
  rows : List (List ℚ)
  xIdx : Nat
  xerrIdx : Nat
  yIdx : Nat
  yerrIdx : Nat
deriving DecidableEq

/-- Column `j` of the container: the `j`-th entry of every data row. -/
def FittingData.column (fd : FittingData) (j : Nat) : List ℚ :=
  fd.rows.map (fun r => r.getD j 0)

/-- The x view: the column assigned to the x role. -/
def FittingData.x (fd : FittingData) : List ℚ :=
  fd.column fd.xIdx

/-- The xerr view: the column assigned to the x-error role. -/
def FittingData.xerr (fd : FittingData) : List ℚ :=
  fd.column fd.xerrIdx

/-- The y view: the column assigned to the y role. -/
def FittingData.y (fd : FittingData) : List ℚ :=
  fd.column fd.yIdx

/-- The yerr view: the column assigned to the y-error role. -/
def FittingData.yerr (fd : FittingData) : List ℚ :=
  fd.column fd.yerrIdx

/-- Per-key column lookup of the container. -/
def FittingData.lookup (fd : FittingData) (key : String) : Option (List ℚ) :=
  (findIndex key fd.names).map fd.column

/-- Modelled from the spec: the column names of the table — the first row's
strings when it is a header, else stringified 0-based indices. -/
def tableNames (first : List Cell) : List String :=
  if isHeaderRow first then first.map cellString
  else (List.range first.length).map Nat.repr

/-- Modelled from the spec: the data rows of the table — everything after a
header row, or all rows when the first row is data. -/
def tableBody (first : List Cell) (rest : List (List Cell)) : List (List Cell) :=
  if isHeaderRow first then rest else first :: rest

/-- Modelled from the spec: the shared read pipeline behind
`read_from_csv`, `read_from_excel` and `read_from_json` (the source readers
differ only in how they produce rows). Raw rows go through rectangularity
checking, header detection, per-cell coercion and role resolution, producing
a `FittingData` container or an error. -/
def readTable (rows : List (List Cell)) (sel : Selectors) :
    Except ReadError FittingData :=
  match rows with
  | [] => Except.error ReadError.invalidFileSyntax
  | first :: rest =>
    if (first :: rest).all (fun r => r.length = first.length) then
      match coerceRows (tableBody first rest) with
      | none => Except.error ReadError.invalidFileSyntax
      | some grid =>
        match resolveRoles (tableNames first) first.length sel with
        | Except.ok (xi, xei, yi, yei) =>
          Except.ok ⟨tableNames first, grid, xi, xei, yi, yei⟩
        | Except.error e => Except.error e
    else Except.error ReadError.invalidFileSyntax

/-- Column `j` of a row-major numeric grid. -/
def gridColumn (g : List (List ℚ)) (j : Nat) : List ℚ :=
  g.map (fun r => r.getD j 0)

/-- Embedded from `eddington/plot.py` (`get_plot_borders`): plot borders
from the x values, with a 10% gap on each side unless an explicit border is
supplied. -/
def get_plot_borders (x : List ℚ) (xmin : Option ℚ) (xmax : Option ℚ) : ℚ × ℚ :=
  let data_xmin := match x with | [] => 0 | a :: l => l.foldl min a
  let data_xmax := match x with | [] => 0 | a :: l => l.foldl max a
  let gap := (data_xmax - data_xmin) * (1 / 10)
  (match xmin with
   | none => data_xmin - gap
   | some v => v,
   match xmax with
   | none => data_xmax + gap
   | some v => v)

/-! ### Helper lemmas -/

lemma coerceRow_eq_none_of_mem {row : List Cell} {c : Cell}
    (hc : c ∈ row) (hbad : coerceCell c = none) : coerceRow row = none := by
  induction row with
  | nil => cases hc
  | cons a l ih =>
    rcases List.mem_cons.mp hc with h | h
    · subst h
      rw [coerceRow, hbad]
    · rw [coerceRow, ih h]
      cases coerceCell a <;> rfl

lemma coerceRows_eq_none_of_mem {rows : List (List Cell)} {row : List Cell}
    (hrow : row ∈ rows) (hbad : coerceRow row = none) : coerceRows rows = none := by
  induction rows with
  | nil => cases hrow
  | cons r rs ih =>
    rcases List.mem_cons.mp hrow with h | h
    · subst h
      rw [coerceRows, hbad]
    · rw [coerceRows, ih h]
      cases coerceRow r <;> rfl

lemma findIndex_eq_none_of_not_mem {s : String} {l : List String} (h : s ∉ l) :
    findIndex s l = none := by
  induction l with
  | nil => rfl
  | cons a t ih =>
    rw [findIndex, if_neg, ih (fun hm => h (List.mem_cons_of_mem a hm))]
    · rfl
    · intro he
      exact h (he ▸ List.mem_cons_self a t)

lemma findIndex_get_of_nodup {l : List String} (hnd : l.Nodup) (j : Nat)
    (hj : j < l.length) : findIndex (l.get ⟨j, hj⟩) l = some j := by
  induction l generalizing j with
  | nil => simp at hj
  | cons a t ih =>
    cases j with
    | zero => simp [findIndex]
    | succ m =>
      have hm : m < t.length := by simpa using hj
      have ha : a ≠ t.get ⟨m, hm⟩ := by
        intro he
        exact (List.nodup_cons.mp hnd).1 (he ▸ List.get_mem t m hm)
      have : (a :: t).get ⟨m + 1, hj⟩ = t.get ⟨m, hm⟩ := rfl
      rw [this, findIndex, if_neg ha, ih (List.nodup_cons.mp hnd).2 m hm]
      rfl

lemma isHeaderRow_eq_false_of_mem {row : List Cell} {c : Cell}
    (hc : c ∈ row) (h : isHeaderCell c = false) : isHeaderRow row = false := by
  rw [isHeaderRow]
  rcases hall : row.all isHeaderCell with _ | _
  · rfl
  · rw [List.all_eq_true] at hall
    rw [hall c hc] at h
    cases h

lemma nextUnused_nil (p : Nat) : nextUnused [] p = p := by
  simp [nextUnused, nextUnusedAux]

lemma resolveRoles_noSelectors (names : List String) (n : Nat) (hn : 4 ≤ n) :
    resolveRoles names n noSelectors = Except.ok (0, 1, 2, 3) := by
  have h0 : (0 : Nat) < n := by omega
  have h1 : (1 : Nat) < n := by omega
  have h2 : (2 : Nat) < n := by omega
  have h3 : (3 : Nat) < n := by omega
  simp [resolveRoles, noSelectors, resolveOpt, assignRole, nextUnused, nextUnusedAux,
    h0, h1, h2, h3]

lemma resolveRoles_xSel (names : List String) (n : Nat) (hn : 6 ≤ n) :
    resolveRoles names n ⟨some (ColSel.idx 3), none, none, none⟩ =
      Except.ok (2, 3, 4, 5) := by
  have hk : 1 ≤ 3 ∧ 3 ≤ n := ⟨by omega, by omega⟩
  have h2 : (2 : Nat) < n := by omega
  have h3 : (3 : Nat) < n := by omega
  have h4 : (4 : Nat) < n := by omega
  have h5 : (5 : Nat) < n := by omega
  simp [resolveRoles, resolveOpt, resolveSel, assignRole, nextUnused, nextUnusedAux,
    hk, h2, h3, h4, h5]

lemma resolveRoles_xerrSel (names : List String) (n : Nat) (hn : 6 ≤ n) :
    resolveRoles names n ⟨none, some (ColSel.idx 3), none, none⟩ =
      Except.ok (0, 2, 3, 4) := by
  have hk : 1 ≤ 3 ∧ 3 ≤ n := ⟨by omega, by omega⟩
  have h0 : (0 : Nat) < n := by omega
  have h2 : (2 : Nat) < n := by omega
  have h3 : (3 : Nat) < n := by omega
  have h4 : (4 : Nat) < n := by omega
  simp [resolveRoles, resolveOpt, resolveSel, assignRole, nextUnused, nextUnusedAux,
    hk, h0, h2, h3, h4]

lemma resolveRoles_ySel (names : List String) (n : Nat) (hn : 6 ≤ n) :
    resolveRoles names n ⟨none, none, some (ColSel.idx 5), none⟩ =
      Except.ok (0, 1, 4, 5) := by
  have hk : 1 ≤ 5 ∧ 5 ≤ n := ⟨by omega, by omega⟩
  have h0 : (0 : Nat) < n := by omega
  have h1 : (1 : Nat) < n := by omega
  have h4 : (4 : Nat) < n := by omega
  have h5 : (5 : Nat) < n := by omega
  simp [resolveRoles, resolveOpt, resolveSel, assignRole, nextUnused, nextUnusedAux,
    hk, h0, h1, h4, h5]

lemma resolveRoles_yerrSel (names : List String) (n : Nat) (hn : 6 ≤ n) :
    resolveRoles names n ⟨none, none, none, some (ColSel.idx 5)⟩ =
      Except.ok (0, 1, 2, 4) := by
  have hk : 1 ≤ 5 ∧ 5 ≤ n := ⟨by omega, by omega⟩
  have h0 : (0 : Nat) < n := by omega
  have h1 : (1 : Nat) < n := by omega
  have h2 : (2 : Nat) < n := by omega
  have h4 : (4 : Nat) < n := by omega
  simp [resolveRoles, resolveOpt, resolveSel, assignRole, nextUnused, nextUnusedAux,
    hk, h0, h1, h2, h4]

lemma readTable_eq_ok {first : List Cell} {rest : List (List Cell)}
    {grid : List (List ℚ)} {sel : Selectors} {a b c d : Nat}
    (hrect : ((first :: rest).all fun r => r.length = first.length) = true)
    (hco : coerceRows (tableBody first rest) = some grid)
    (hres : resolveRoles (tableNames first) first.length sel = Except.ok (a, b, c, d)) :
    readTable (first :: rest) sel = Except.ok ⟨tableNames first, grid, a, b, c, d⟩ := by
  rw [readTable, if_pos hrect, hco, hres]

lemma readTable_ok_inv {first : List Cell} {rest : List (List Cell)}
    {sel : Selectors} {fd : FittingData}
    (hok : readTable (first :: rest) sel = Except.ok fd) :
    fd.names = tableNames first ∧ coerceRows (tableBody first rest) = some fd.rows := by
  rw [readTable] at hok
  split at hok
  · rcases hco : coerceRows (tableBody first rest) with _ | grid
    · rw [hco] at hok
      cases hok
    · rw [hco] at hok
      rcases hres : resolveRoles (tableNames first) first.length sel with e | r
      · rw [hres] at hok
        cases hok
      · obtain ⟨ra, rb, rc, rd⟩ := r
        rw [hres] at hok
        cases hok
        exact ⟨rfl, rfl⟩
  · cases hok

lemma readTable_syntax_of_bad {first : List Cell} {rest : List (List Cell)}
    {sel : Selectors} {row : List Cell} {c : Cell}
    (hrow : row ∈ tableBody first rest) (hc : c ∈ row)
    (hbad : coerceCell c = none) :
    readTable (first :: rest) sel = Except.error ReadError.invalidFileSyntax := by
  rw [readTable]
  split
  · rw [coerceRows_eq_none_of_mem hrow (coerceRow_eq_none_of_mem hc hbad)]
  · rfl

lemma resolveOpt_cases (names : List String) (n : Nat) (o : Option ColSel) :
    (∃ v, resolveOpt names n o = Except.ok v) ∨
      resolveOpt names n o = Except.error ReadError.invalidSelection := by
  rcases o with _ | c
  · exact Or.inl ⟨none, rfl⟩
  · rcases c with k | s
    · by_cases hk : 1 ≤ k ∧ k ≤ n
      · exact Or.inl ⟨some (k - 1), by simp only [resolveOpt, resolveSel, if_pos hk]⟩
      · exact Or.inr (by simp only [resolveOpt, resolveSel, if_neg hk])
    · rcases hf : findIndex s names with _ | i
      · exact Or.inr (by simp only [resolveOpt, resolveSel, hf])
      · exact Or.inl ⟨some i, by simp only [resolveOpt, resolveSel, hf]⟩

lemma resolveRoles_selection_error {names : List String} {n : Nat} {sel : Selectors}
    (h : resolveOpt names n sel.x = Except.error ReadError.invalidSelection ∨
      resolveOpt names n sel.xerr = Except.error ReadError.invalidSelection ∨
      resolveOpt names n sel.y = Except.error ReadError.invalidSelection ∨
      resolveOpt names n sel.yerr = Except.error ReadError.invalidSelection) :
    resolveRoles names n sel = Except.error ReadError.invalidSelection := by
  rcases resolveOpt_cases names n sel.x with ⟨vx, hx⟩ | hx <;>
    rcases resolveOpt_cases names n sel.xerr with ⟨vxe, hxe⟩ | hxe <;>
    rcases resolveOpt_cases names n sel.y with ⟨vy, hy⟩ | hy <;>
    rcases resolveOpt_cases names n sel.yerr with ⟨vye, hye⟩ | hye <;>
    rw [resolveRoles, hx, hxe, hy, hye] <;>
    simp_all

/-! ### Claim theorems -/

/-- C1: For a well-formed rectangular numeric grid (every source format
feeds the same row pipeline) read with no selectors, the four roles are
assigned left-to-right in the fixed order x, xerr, y, yerr over 0-based
columns 0, 1, 2, 3, and the x/xerr/y/yerr views of the returned container
are exactly those columns of the coerced data grid. -/
theorem readTable_default_roles (first : List Cell) (rest : List (List Cell))
    (grid : List (List ℚ))
    (hrect : ((first :: rest).all fun r => r.length = first.length) = true)
    (hco : coerceRows (tableBody first rest) = some grid)
    (hn : 4 ≤ first.length) :
    ∃ fd : FittingData, readTable (first :: rest) noSelectors = Except.ok fd ∧
      fd.rows = grid ∧
      fd.xIdx = 0 ∧ fd.xerrIdx = 1 ∧ fd.yIdx = 2 ∧ fd.yerrIdx = 3 ∧
      fd.x = gridColumn grid 0 ∧ fd.xerr = gridColumn grid 1 ∧
      fd.y = gridColumn grid 2 ∧ fd.yerr = gridColumn grid 3 :=
  ⟨⟨tableNames first, grid, 0, 1, 2, 3⟩,
    readTable_eq_ok hrect hco (resolveRoles_noSelectors _ _ hn),
    rfl, rfl, rfl, rfl, rfl, rfl, rfl, rfl, rfl⟩

/-- Witness for C1: a four-column table with a header row. -/
theorem readTable_default_roles_witness :
    ∃ fd : FittingData,
      readTable [[Cell.str "a", Cell.str "b", Cell.str "c", Cell.str "d"],
        [Cell.num 1, Cell.num 5, Cell.num 2, Cell.num 6],
        [Cell.num 3, Cell.num 7, Cell.num 4, Cell.num 8]] noSelectors =
        Except.ok fd ∧
      fd.rows = [[1, 5, 2, 6], [3, 7, 4, 8]] ∧
      fd.xIdx = 0 ∧ fd.xerrIdx = 1 ∧ fd.yIdx = 2 ∧ fd.yerrIdx = 3 ∧
      fd.x = gridColumn [[1, 5, 2, 6], [3, 7, 4, 8]] 0 ∧
      fd.xerr = gridColumn [[1, 5, 2, 6], [3, 7, 4, 8]] 1 ∧
      fd.y = gridColumn [[1, 5, 2, 6], [3, 7, 4, 8]] 2 ∧
      fd.yerr = gridColumn [[1, 5, 2, 6], [3, 7, 4, 8]] 3 :=
  readTable_default_roles
    [Cell.str "a", Cell.str "b", Cell.str "c", Cell.str "d"]
    [[Cell.num 1, Cell.num 5, Cell.num 2, Cell.num 6],
      [Cell.num 3, Cell.num 7, Cell.num 4, Cell.num 8]]
    [[1, 5, 2, 6], [3, 7, 4, 8]]
    (by decide) (by decide) (by decide)

/-- C2: Any data-row cell that is a non-numeric string, or a missing/None
marker, makes the read fail with the file-syntax error; no container is
returned and no value is silently coerced. -/
theorem readTable_invalid_cell (first : List Cell) (rest : List (List Cell))
    (sel : Selectors) (row : List Cell) (c : Cell)
    (hrow : row ∈ tableBody first rest) (hc : c ∈ row)
    (hbad : (∃ s, c = Cell.str s ∧ parseFloat? s = none) ∨ c = Cell.absent) :
    readTable (first :: rest) sel = Except.error ReadError.invalidFileSyntax := by
  apply readTable_syntax_of_bad hrow hc
  rcases hbad with ⟨s, rfl, hs⟩ | rfl
  · simpa [coerceCell] using hs
  · rfl

/-- Witness for C2: the non-numeric token "f" in a data cell. -/
theorem readTable_invalid_cell_witness :
    readTable [[Cell.str "a", Cell.str "b", Cell.str "c", Cell.str "d"],
      [Cell.str "f", Cell.num 1, Cell.num 2, Cell.num 3],
      [Cell.num 3, Cell.num 1, Cell.num 4, Cell.num 2]] noSelectors =
      Except.error ReadError.invalidFileSyntax :=
  readTable_invalid_cell
    [Cell.str "a", Cell.str "b", Cell.str "c", Cell.str "d"]
    [[Cell.str "f", Cell.num 1, Cell.num 2, Cell.num 3],
      [Cell.num 3, Cell.num 1, Cell.num 4, Cell.num 2]]
    noSelectors
    [Cell.str "f", Cell.num 1, Cell.num 2, Cell.num 3] (Cell.str "f")
    (by decide) (by decide) (Or.inl ⟨"f", rfl, by decide⟩)

/-- C3: A first row containing an empty-string cell, or containing a cell
that parses as a float alongside header-like string cells, makes the read
fail with the file-syntax error; no container is returned. -/
theorem readTable_bad_header (first : List Cell) (rest : List (List Cell))
    (sel : Selectors)
    (hbad : Cell.str "" ∈ first ∨
      ((∃ s q, Cell.str s ∈ first ∧ parseFloat? s = some q) ∧
        ∃ t, Cell.str t ∈ first ∧ t ≠ "" ∧ parseFloat? t = none)) :
    readTable (first :: rest) sel = Except.error ReadError.invalidFileSyntax := by
  rcases hbad with hmem | ⟨⟨s, q, hsmem, hs⟩, t, htmem, htne, ht⟩
  · have hnh : isHeaderRow first = false :=
      isHeaderRow_eq_false_of_mem hmem (by decide)
    have hbody : first ∈ tableBody first rest := by
      simp [tableBody, hnh]
    exact readTable_syntax_of_bad hbody hmem (by decide)
  · have hnh : isHeaderRow first = false := by
      apply isHeaderRow_eq_false_of_mem hsmem
      simp [isHeaderCell, hs]
    have hbody : first ∈ tableBody first rest := by
      simp [tableBody, hnh]
    apply readTable_syntax_of_bad hbody htmem
    simpa [coerceCell] using ht

/-- Witness for C3: the header row with an empty first cell. -/
theorem readTable_bad_header_witness :
    readTable [[Cell.str "", Cell.str "b", Cell.str "c", Cell.str "d"],
      [Cell.num 1, Cell.num 1, Cell.num 2, Cell.num 2]] noSelectors =
      Except.error ReadError.invalidFileSyntax :=
  readTable_bad_header
    [Cell.str "", Cell.str "b", Cell.str "c", Cell.str "d"]
    [[Cell.num 1, Cell.num 1, Cell.num 2, Cell.num 2]]
    noSelectors (Or.inl (by decide))

/-- C4: When every first-row cell is a non-empty string that does not parse
as a float, the first row is detected as a header and its strings become the
column names of the returned container, and looking up a (duplicate-free)
header name yields exactly that column of the coerced data. -/
theorem readTable_header_names (first : List Cell) (rest : List (List Cell))
    (sel : Selectors) (fd : FittingData)
    (hhdr : ∀ c ∈ first, ∃ s, c = Cell.str s ∧ s ≠ "" ∧ parseFloat? s = none)
    (hok : readTable (first :: rest) sel = Except.ok fd) :
    fd.names = first.map cellString ∧
    coerceRows rest = some fd.rows ∧
    (fd.names.Nodup → ∀ j (hj : j < fd.names.length),
      fd.lookup (fd.names.get ⟨j, hj⟩) = some (fd.column j)) := by
  have hh : isHeaderRow first = true := by
    rw [isHeaderRow, List.all_eq_true]
    intro c hc
    obtain ⟨s, rfl, hne, hpf⟩ := hhdr c hc
    simp [isHeaderCell, hpf, hne]
  obtain ⟨hnames, hrows⟩ := readTable_ok_inv hok
  refine ⟨?_, ?_, ?_⟩
  · rw [hnames]
    simp only [tableNames, if_pos hh]
  · rw [← hrows]
    simp only [tableBody, if_pos hh]
  · intro hnd j hj
    rw [FittingData.lookup, findIndex_get_of_nodup hnd j hj]
    rfl

/-- Witness for C4: header row a, b, c, d over a 2-row numeric body. -/
theorem readTable_header_names_witness :
    (FittingData.mk ["a", "b", "c", "d"] [[1, 5, 2, 6], [3, 7, 4, 8]] 0 1 2 3).names =
        [Cell.str "a", Cell.str "b", Cell.str "c", Cell.str "d"].map cellString ∧
      coerceRows [[Cell.num 1, Cell.num 5, Cell.num 2, Cell.num 6],
          [Cell.num 3, Cell.num 7, Cell.num 4, Cell.num 8]] =
        some (FittingData.mk ["a", "b", "c", "d"] [[1, 5, 2, 6], [3, 7, 4, 8]] 0 1 2 3).rows ∧
      ((FittingData.mk ["a", "b", "c", "d"] [[1, 5, 2, 6], [3, 7, 4, 8]] 0 1 2 3).names.Nodup →
        ∀ j (hj : j <
          (FittingData.mk ["a", "b", "c", "d"] [[1, 5, 2, 6], [3, 7, 4, 8]] 0 1 2 3).names.length),
          (FittingData.mk ["a", "b", "c", "d"] [[1, 5, 2, 6], [3, 7, 4, 8]] 0 1 2 3).lookup
              ((FittingData.mk ["a", "b", "c", "d"] [[1, 5, 2, 6], [3, 7, 4, 8]] 0 1 2 3).names.get
                ⟨j, hj⟩) =
            some ((FittingData.mk ["a", "b", "c", "d"] [[1, 5, 2, 6], [3, 7, 4, 8]] 0 1 2 3).column j)) :=
  readTable_header_names
    [Cell.str "a", Cell.str "b", Cell.str "c", Cell.str "d"]
    [[Cell.num 1, Cell.num 5, Cell.num 2, Cell.num 6],
      [Cell.num 3, Cell.num 7, Cell.num 4, Cell.num 8]]
    noSelectors
    (FittingData.mk ["a", "b", "c", "d"] [[1, 5, 2, 6], [3, 7, 4, 8]] 0 1 2 3)
    (by
      intro c hc
      fin_cases hc <;> exact ⟨_, rfl, by decide, by decide⟩)
    rfl

/-- C5: When the first row is not detected as a header, it is kept as data,
the column names are the stringified 0-based indices, and looking up key
"0" yields the first column of the data (which includes the first row). -/
theorem readTable_index_names (first : List Cell) (rest : List (List Cell))
    (sel : Selectors) (fd : FittingData)
    (hdata : isHeaderRow first = false) (hne : first ≠ [])
    (hok : readTable (first :: rest) sel = Except.ok fd) :
    fd.names = (List.range first.length).map Nat.repr ∧
    coerceRows (first :: rest) = some fd.rows ∧
    fd.lookup "0" = some (fd.column 0) := by
  obtain ⟨hnames, hrows⟩ := readTable_ok_inv hok
  have hb : tableBody first rest = first :: rest := by
    simp only [tableBody, hdata]
    rfl
  have hn : fd.names = (List.range first.length).map Nat.repr := by
    rw [hnames]
    simp only [tableNames, hdata]
    rfl
  refine ⟨hn, by rw [← hb]; exact hrows, ?_⟩
  obtain ⟨a, l, rfl⟩ : ∃ a l, first = a :: l := by
    cases first with
    | nil => exact absurd rfl hne
    | cons a l => exact ⟨a, l, rfl⟩
  have h0 : Nat.repr 0 = "0" := rfl
  rw [FittingData.lookup, hn]
  simp only [List.length_cons, List.range_succ_eq_map, List.map_cons, findIndex,
    if_pos h0]
  rfl

/-- Witness for C5: an all-numeric first row is kept as data and key "0"
returns the first column, first row included. -/
theorem readTable_index_names_witness :
    (FittingData.mk ["0", "1", "2", "3"] [[1, 5, 2, 6], [3, 7, 4, 8]] 0 1 2 3).names =
        (List.range ([Cell.num 1, Cell.num 5, Cell.num 2, Cell.num 6] : List Cell).length).map
          Nat.repr ∧
      coerceRows [[Cell.num 1, Cell.num 5, Cell.num 2, Cell.num 6],
          [Cell.num 3, Cell.num 7, Cell.num 4, Cell.num 8]] =
        some (FittingData.mk ["0", "1", "2", "3"] [[1, 5, 2, 6], [3, 7, 4, 8]] 0 1 2 3).rows ∧
      (FittingData.mk ["0", "1", "2", "3"] [[1, 5, 2, 6], [3, 7, 4, 8]] 0 1 2 3).lookup "0" =
        some ((FittingData.mk ["0", "1", "2", "3"] [[1, 5, 2, 6], [3, 7, 4, 8]] 0 1 2 3).column 0) :=
  readTable_index_names
    [Cell.num 1, Cell.num 5, Cell.num 2, Cell.num 6]
    [[Cell.num 3, Cell.num 7, Cell.num 4, Cell.num 8]]
    noSelectors
    (FittingData.mk ["0", "1", "2", "3"] [[1, 5, 2, 6], [3, 7, 4, 8]] 0 1 2 3)
    (by decide) (by decide) rfl

/-- C8: When the first row contains an empty cell or a numeric-looking cell,
it is not treated as a header, and the table's column names — hence the
names of any returned container — are the stringified 0-based indices. -/
theorem readTable_data_like_first_row (first : List Cell) (rest : List (List Cell))
    (sel : Selectors) (c : Cell) (hc : c ∈ first)
    (hbad : c = Cell.str "" ∨ (∃ q, c = Cell.num q) ∨
      ∃ s q, c = Cell.str s ∧ parseFloat? s = some q) :
    isHeaderRow first = false ∧
    tableNames first = (List.range first.length).map Nat.repr ∧
    ∀ fd : FittingData, readTable (first :: rest) sel = Except.ok fd →
      fd.names = (List.range first.length).map Nat.repr := by
  have hcell : isHeaderCell c = false := by
    rcases hbad with rfl | ⟨q, rfl⟩ | ⟨s, q, rfl, hs⟩
    · decide
    · rfl
    · simp [isHeaderCell, hs]
  have hrow : isHeaderRow first = false := isHeaderRow_eq_false_of_mem hc hcell
  have htn : tableNames first = (List.range first.length).map Nat.repr := by
    simp only [tableNames, hrow]
    rfl
  refine ⟨hrow, htn, ?_⟩
  intro fd hok
  rw [(readTable_ok_inv hok).1, htn]

/-- Witness for C8: a first row whose first cell is the numeric-looking
string "1.25". -/
theorem readTable_data_like_first_row_witness :
    isHeaderRow [Cell.str "1.25", Cell.str "b", Cell.str "c", Cell.str "d"] = false ∧
      tableNames [Cell.str "1.25", Cell.str "b", Cell.str "c", Cell.str "d"] =
        (List.range
          ([Cell.str "1.25", Cell.str "b", Cell.str "c", Cell.str "d"] : List Cell).length).map
          Nat.repr ∧
      ∀ fd : FittingData,
        readTable [[Cell.str "1.25", Cell.str "b", Cell.str "c", Cell.str "d"],
            [Cell.num 1, Cell.num 5, Cell.num 2, Cell.num 6]] noSelectors = Except.ok fd →
          fd.names =
            (List.range
              ([Cell.str "1.25", Cell.str "b", Cell.str "c", Cell.str "d"] : List Cell).length).map
              Nat.repr :=
  readTable_data_like_first_row
    [Cell.str "1.25", Cell.str "b", Cell.str "c", Cell.str "d"]
    [[Cell.num 1, Cell.num 5, Cell.num 2, Cell.num 6]]
    noSelectors (Cell.str "1.25") (by decide)
    (Or.inr (Or.inr ⟨"1.25", ((1 : ℕ) : ℚ) + ((25 : ℕ) : ℚ) / 10 ^ 2, rfl, rfl⟩))

/-- C6: With some roles explicit and the rest defaulted, the unspecified
roles take the next unused columns of the left-to-right scan: an explicit
xerr selector 3 yields 0-based roles (0, 2, 3, 4); an explicit y selector 5
yields (0, 1, 4, 5); an explicit yerr selector 5 yields (0, 1, 2, 4); the
views are the corresponding columns of the coerced grid. -/
theorem readTable_mixed_selectors (first : List Cell) (rest : List (List Cell))
    (grid : List (List ℚ))
    (hrect : ((first :: rest).all fun r => r.length = first.length) = true)
    (hco : coerceRows (tableBody first rest) = some grid)
    (hn : 6 ≤ first.length) :
    (∃ fd : FittingData,
      readTable (first :: rest) ⟨none, some (ColSel.idx 3), none, none⟩ = Except.ok fd ∧
      fd.rows = grid ∧ fd.xIdx = 0 ∧ fd.xerrIdx = 2 ∧ fd.yIdx = 3 ∧ fd.yerrIdx = 4 ∧
      fd.x = gridColumn grid 0 ∧ fd.xerr = gridColumn grid 2 ∧
      fd.y = gridColumn grid 3 ∧ fd.yerr = gridColumn grid 4) ∧
    (∃ fd : FittingData,
      readTable (first :: rest) ⟨none, none, some (ColSel.idx 5), none⟩ = Except.ok fd ∧
      fd.rows = grid ∧ fd.xIdx = 0 ∧ fd.xerrIdx = 1 ∧ fd.yIdx = 4 ∧ fd.yerrIdx = 5 ∧
      fd.x = gridColumn grid 0 ∧ fd.xerr = gridColumn grid 1 ∧
      fd.y = gridColumn grid 4 ∧ fd.yerr = gridColumn grid 5) ∧
    (∃ fd : FittingData,
      readTable (first :: rest) ⟨none, none, none, some (ColSel.idx 5)⟩ = Except.ok fd ∧
      fd.rows = grid ∧ fd.xIdx = 0 ∧ fd.xerrIdx = 1 ∧ fd.yIdx = 2 ∧ fd.yerrIdx = 4 ∧
      fd.x = gridColumn grid 0 ∧ fd.xerr = gridColumn grid 1 ∧
      fd.y = gridColumn grid 2 ∧ fd.yerr = gridColumn grid 4) :=
  ⟨⟨⟨tableNames first, grid, 0, 2, 3, 4⟩,
      readTable_eq_ok hrect hco (resolveRoles_xerrSel _ _ hn),
      rfl, rfl, rfl, rfl, rfl, rfl, rfl, rfl, rfl⟩,
    ⟨⟨tableNames first, grid, 0, 1, 4, 5⟩,
      readTable_eq_ok hrect hco (resolveRoles_ySel _ _ hn),
      rfl, rfl, rfl, rfl, rfl, rfl, rfl, rfl, rfl⟩,
    ⟨⟨tableNames first, grid, 0, 1, 2, 4⟩,
      readTable_eq_ok hrect hco (resolveRoles_yerrSel _ _ hn),
      rfl, rfl, rfl, rfl, rfl, rfl, rfl, rfl, rfl⟩⟩

/-- Witness for C6: a 6-column data table under each of the three explicit
selectors xerr = 3, y = 5, yerr = 5. -/
theorem readTable_mixed_selectors_witness :
    (∃ fd : FittingData,
      readTable [[Cell.num 1, Cell.num 2, Cell.num 3, Cell.num 4, Cell.num 5, Cell.num 6],
          [Cell.num 7, Cell.num 8, Cell.num 9, Cell.num 10, Cell.num 11, Cell.num 12]]
        ⟨none, some (ColSel.idx 3), none, none⟩ = Except.ok fd ∧
      fd.rows = [[1, 2, 3, 4, 5, 6], [7, 8, 9, 10, 11, 12]] ∧
      fd.xIdx = 0 ∧ fd.xerrIdx = 2 ∧ fd.yIdx = 3 ∧ fd.yerrIdx = 4 ∧
      fd.x = gridColumn [[1, 2, 3, 4, 5, 6], [7, 8, 9, 10, 11, 12]] 0 ∧
      fd.xerr = gridColumn [[1, 2, 3, 4, 5, 6], [7, 8, 9, 10, 11, 12]] 2 ∧
      fd.y = gridColumn [[1, 2, 3, 4, 5, 6], [7, 8, 9, 10, 11, 12]] 3 ∧
      fd.yerr = gridColumn [[1, 2, 3, 4, 5, 6], [7, 8, 9, 10, 11, 12]] 4) ∧
    (∃ fd : FittingData,
      readTable [[Cell.num 1, Cell.num 2, Cell.num 3, Cell.num 4, Cell.num 5, Cell.num 6],
          [Cell.num 7, Cell.num 8, Cell.num 9, Cell.num 10, Cell.num 11, Cell.num 12]]
        ⟨none, none, some (ColSel.idx 5), none⟩ = Except.ok fd ∧
      fd.rows = [[1, 2, 3, 4, 5, 6], [7, 8, 9, 10, 11, 12]] ∧
      fd.xIdx = 0 ∧ fd.xerrIdx = 1 ∧ fd.yIdx = 4 ∧ fd.yerrIdx = 5 ∧
      fd.x = gridColumn [[1, 2, 3, 4, 5, 6], [7, 8, 9, 10, 11, 12]] 0 ∧
      fd.xerr = gridColumn [[1, 2, 3, 4, 5, 6], [7, 8, 9, 10, 11, 12]] 1 ∧
      fd.y = gridColumn [[1, 2, 3, 4, 5, 6], [7, 8, 9, 10, 11, 12]] 4 ∧
      fd.yerr = gridColumn [[1, 2, 3, 4, 5, 6], [7, 8, 9, 10, 11, 12]] 5) ∧
    (∃ fd : FittingData,
      readTable [[Cell.num 1, Cell.num 2, Cell.num 3, Cell.num 4, Cell.num 5, Cell.num 6],
          [Cell.num 7, Cell.num 8, Cell.num 9, Cell.num 10, Cell.num 11, Cell.num 12]]
        ⟨none, none, none, some (ColSel.idx 5)⟩ = Except.ok fd ∧
      fd.rows = [[1, 2, 3, 4, 5, 6], [7, 8, 9, 10, 11, 12]] ∧
      fd.xIdx = 0 ∧ fd.xerrIdx = 1 ∧ fd.yIdx = 2 ∧ fd.yerrIdx = 4 ∧
      fd.x = gridColumn [[1, 2, 3, 4, 5, 6], [7, 8, 9, 10, 11, 12]] 0 ∧
      fd.xerr = gridColumn [[1, 2, 3, 4, 5, 6], [7, 8, 9, 10, 11, 12]] 1 ∧
      fd.y = gridColumn [[1, 2, 3, 4, 5, 6], [7, 8, 9, 10, 11, 12]] 2 ∧
      fd.yerr = gridColumn [[1, 2, 3, 4, 5, 6], [7, 8, 9, 10, 11, 12]] 4) :=
  readTable_mixed_selectors
    [Cell.num 1, Cell.num 2, Cell.num 3, Cell.num 4, Cell.num 5, Cell.num 6]
    [[Cell.num 7, Cell.num 8, Cell.num 9, Cell.num 10, Cell.num 11, Cell.num 12]]
    [[1, 2, 3, 4, 5, 6], [7, 8, 9, 10, 11, 12]]
    (by decide) (by decide) (by decide)

/-- C7: With the single explicit selector x_column = 3 on a table of at
least 6 columns, x is assigned 0-based column 2 and xerr, y, yerr the next
three columns 3, 4, 5 in order; 0-based columns 0 and 1 (1-based 1 and 2)
are referenced by no role. -/
theorem readTable_x_selector (first : List Cell) (rest : List (List Cell))
    (grid : List (List ℚ))
    (hrect : ((first :: rest).all fun r => r.length = first.length) = true)
    (hco : coerceRows (tableBody first rest) = some grid)
    (hn : 6 ≤ first.length) :
    ∃ fd : FittingData,
      readTable (first :: rest) ⟨some (ColSel.idx 3), none, none, none⟩ = Except.ok fd ∧
      fd.rows = grid ∧ fd.xIdx = 2 ∧ fd.xerrIdx = 3 ∧ fd.yIdx = 4 ∧ fd.yerrIdx = 5 ∧
      fd.x = gridColumn grid 2 ∧ fd.xerr = gridColumn grid 3 ∧
      fd.y = gridColumn grid 4 ∧ fd.yerr = gridColumn grid 5 ∧
      0 ∉ [fd.xIdx, fd.xerrIdx, fd.yIdx, fd.yerrIdx] ∧
      1 ∉ [fd.xIdx, fd.xerrIdx, fd.yIdx, fd.yerrIdx] :=
  ⟨⟨tableNames first, grid, 2, 3, 4, 5⟩,
    readTable_eq_ok hrect hco (resolveRoles_xSel _ _ hn),
    rfl, rfl, rfl, rfl, rfl, rfl, rfl, rfl, rfl,
    (by decide : (0 : Nat) ∉ [2, 3, 4, 5]), (by decide : (1 : Nat) ∉ [2, 3, 4, 5])⟩

/-- Witness for C7: the explicit x selector 3 on a 6-column data table. -/
theorem readTable_x_selector_witness :
    ∃ fd : FittingData,
      readTable [[Cell.num 1, Cell.num 2, Cell.num 3, Cell.num 4, Cell.num 5, Cell.num 6],
          [Cell.num 7, Cell.num 8, Cell.num 9, Cell.num 10, Cell.num 11, Cell.num 12]]
        ⟨some (ColSel.idx 3), none, none, none⟩ = Except.ok fd ∧
      fd.rows = [[1, 2, 3, 4, 5, 6], [7, 8, 9, 10, 11, 12]] ∧
      fd.xIdx = 2 ∧ fd.xerrIdx = 3 ∧ fd.yIdx = 4 ∧ fd.yerrIdx = 5 ∧
      fd.x = gridColumn [[1, 2, 3, 4, 5, 6], [7, 8, 9, 10, 11, 12]] 2 ∧
      fd.xerr = gridColumn [[1, 2, 3, 4, 5, 6], [7, 8, 9, 10, 11, 12]] 3 ∧
      fd.y = gridColumn [[1, 2, 3, 4, 5, 6], [7, 8, 9, 10, 11, 12]] 4 ∧
      fd.yerr = gridColumn [[1, 2, 3, 4, 5, 6], [7, 8, 9, 10, 11, 12]] 5 ∧
      0 ∉ [fd.xIdx, fd.xerrIdx, fd.yIdx, fd.yerrIdx] ∧
      1 ∉ [fd.xIdx, fd.xerrIdx, fd.yIdx, fd.yerrIdx] :=
  readTable_x_selector
    [Cell.num 1, Cell.num 2, Cell.num 3, Cell.num 4, Cell.num 5, Cell.num 6]
    [[Cell.num 7, Cell.num 8, Cell.num 9, Cell.num 10, Cell.num 11, Cell.num 12]]
    [[1, 2, 3, 4, 5, 6], [7, 8, 9, 10, 11, 12]]
    (by decide) (by decide) (by decide)

/-- C9: A supplied selector carrying an out-of-range 1-based column index or
a name absent from the column names makes the read fail with the selection
error, which is distinct from the file-syntax error. -/
theorem readTable_bad_selector (first : List Cell) (rest : List (List Cell))
    (grid : List (List ℚ)) (sel : Selectors) (c : ColSel)
    (hrect : ((first :: rest).all fun r => r.length = first.length) = true)
    (hco : coerceRows (tableBody first rest) = some grid)
    (hsel : sel.x = some c ∨ sel.xerr = some c ∨ sel.y = some c ∨ sel.yerr = some c)
    (hbad : (∃ k, c = ColSel.idx k ∧ (k = 0 ∨ first.length < k)) ∨
      ∃ s, c = ColSel.name s ∧ s ∉ tableNames first) :
    readTable (first :: rest) sel = Except.error ReadError.invalidSelection ∧
    ReadError.invalidSelection ≠ ReadError.invalidFileSyntax := by
  have hres : resolveSel (tableNames first) first.length c =
      Except.error ReadError.invalidSelection := by
    rcases hbad with ⟨k, rfl, hk⟩ | ⟨s, rfl, hs⟩
    · simp only [resolveSel, if_neg (by omega : ¬(1 ≤ k ∧ k ≤ first.length))]
    · simp only [resolveSel, findIndex_eq_none_of_not_mem hs]
  have hopt : resolveOpt (tableNames first) first.length (some c) =
      Except.error ReadError.invalidSelection := by
    simp only [resolveOpt, hres]
  have hroles : resolveRoles (tableNames first) first.length sel =
      Except.error ReadError.invalidSelection := by
    apply resolveRoles_selection_error
    rcases hsel with h | h | h | h
    · exact Or.inl (by rw [h]; exact hopt)
    · exact Or.inr (Or.inl (by rw [h]; exact hopt))
    · exact Or.inr (Or.inr (Or.inl (by rw [h]; exact hopt)))
    · exact Or.inr (Or.inr (Or.inr (by rw [h]; exact hopt)))
  exact ⟨by rw [readTable, if_pos hrect, hco, hroles], by decide⟩

/-- Witness for C9: the out-of-range x selector 7 on a 4-column table. -/
theorem readTable_bad_selector_witness :
    readTable [[Cell.num 1, Cell.num 2, Cell.num 3, Cell.num 4],
        [Cell.num 5, Cell.num 6, Cell.num 7, Cell.num 8]]
      ⟨some (ColSel.idx 7), none, none, none⟩ = Except.error ReadError.invalidSelection ∧
    ReadError.invalidSelection ≠ ReadError.invalidFileSyntax :=
  readTable_bad_selector
    [Cell.num 1, Cell.num 2, Cell.num 3, Cell.num 4]
    [[Cell.num 5, Cell.num 6, Cell.num 7, Cell.num 8]]
    [[1, 2, 3, 4], [5, 6, 7, 8]]
    ⟨some (ColSel.idx 7), none, none, none⟩ (ColSel.idx 7)
    (by decide) (by decide) (Or.inl rfl)
    (Or.inl ⟨7, rfl, Or.inr (by decide)⟩)

/-- C10: For a non-empty x array, `get_plot_borders` with no explicit
borders returns (min - g, max + g) with g = 0.1 * (max - min); a supplied
xmin or xmax is returned unchanged in its position regardless of the data. -/
theorem get_plot_borders_spec (x : List ℚ) (hx : x ≠ []) :
    ∃ m M, x.min? = some m ∧ x.max? = some M ∧
      get_plot_borders x none none = (m - (M - m) * (1 / 10), M + (M - m) * (1 / 10)) ∧
      (∀ (a : ℚ) (ob : Option ℚ), (get_plot_borders x (some a) ob).1 = a) ∧
      (∀ (oa : Option ℚ) (b : ℚ), (get_plot_borders x oa (some b)).2 = b) := by
  obtain ⟨a, l, rfl⟩ : ∃ a l, x = a :: l := by
    cases x with
    | nil => exact absurd rfl hx
    | cons a l => exact ⟨a, l, rfl⟩
  refine ⟨l.foldl min a, l.foldl max a, rfl, rfl, rfl, ?_, ?_⟩
  · intro v ob
    cases ob <;> rfl
  · intro oa b
    cases oa <;> rfl

/-- Witness for C10: the x values 1, 5, 3. -/
theorem get_plot_borders_spec_witness :
    ∃ m M, ([1, 5, 3] : List ℚ).min? = some m ∧ ([1, 5, 3] : List ℚ).max? = some M ∧
      get_plot_borders [1, 5, 3] none none = (m - (M - m) * (1 / 10), M + (M - m) * (1 / 10)) ∧
      (∀ (a : ℚ) (ob : Option ℚ), (get_plot_borders [1, 5, 3] (some a) ob).1 = a) ∧
      (∀ (oa : Option ℚ) (b : ℚ), (get_plot_borders [1, 5, 3] oa (some b)).2 = b) :=
  get_plot_borders_spec [1, 5, 3] (by decide)
